import Mathlib

/-
Verification of the narrative turn engine in robot_apoc_game.py.

The embedding models the game core as pure functions over an explicit
session state.  Python dict values that flow through generator hints are
modelled by the small dynamic type Value; Python int() conversion on such
values is modelled by pyInt, which can fail exactly where int() raises.
In-place mutation with an uncaught exception is modelled by returning the
partially updated state together with an error marker.
-/

namespace RobotApoc

/-- Dynamic values carried by generator hint fields (numbers, strings,
booleans, null), as they appear in the parsed JSON dictionaries. -/
inductive Value where
  | vInt (n : Int)
  | vStr (s : String)
  | vBool (b : Bool)
  | vNone
deriving DecidableEq, Repr

/-- Python truthiness for the modelled values: nonzero numbers, nonempty
strings and true are truthy; zero, the empty string, false and None are
falsy. -/
def Value.truthy : Value → Bool
  | .vInt n => n != 0
  | .vStr s => s != ""
  | .vBool b => b
  | .vNone => false

/-- Accumulate decimal digits, failing on any non-digit character. -/
def parseNatDigitsAux : List Char → Nat → Option Nat
  | [], acc => some acc
  | c :: cs, acc =>
    if c.isDigit then parseNatDigitsAux cs (acc * 10 + (c.toNat - 48))
    else none

/-- Decimal natural number parse of a nonempty digit list. -/
def parseNatDigits : List Char → Option Nat
  | [] => none
  | c :: cs => parseNatDigitsAux (c :: cs) 0

/-- Models Python int() applied to a string: an optional sign followed by
decimal digits; anything else raises, modelled as none. -/
def pyParseInt (s : String) : Option Int :=
  match s.data with
  | [] => none
  | c :: cs =>
    if c == '-' then (parseNatDigits cs).map (fun n => -(n : Int))
    else if c == '+' then (parseNatDigits cs).map (fun n => (n : Int))
    else (parseNatDigits (c :: cs)).map (fun n => (n : Int))

/-- Models Python int() on a dynamic value: ints pass through, booleans
become 0 or 1, strings are parsed, None raises. -/
def pyInt : Value → Except Unit Int
  | .vInt n => .ok n
  | .vBool b => .ok (if b then 1 else 0)
  | .vStr s =>
    match pyParseInt s with
    | some n => .ok n
    | none => .error ()
  | .vNone => .error ()

/-- The four robot build-progress flags of State.robot_parts. -/
structure RobotParts where
  power : Bool
  motor : Bool
  sensors : Bool
  control : Bool
deriving DecidableEq, Repr

/-- All four build modules complete, the win condition
all(self.state.robot_parts.values()). -/
def RobotParts.allDone (p : RobotParts) : Bool :=
  p.power && p.motor && p.sensors && p.control

/-- The session state (class State), save_file and log omitted as pure
I/O bookkeeping. -/
structure State where
  turn : Nat
  chapter : Int
  location : String
  profession : String
  level : Int
  hp : Int
  knowledge_score : Int
  robot_parts : RobotParts
  flags : List (String × Value)
  inventory : List Value
  danger_level : Int
  is_game_over : Bool
  is_win : Bool
deriving DecidableEq, Repr

/-- The defaults set by State.__init__. -/
def initState : State :=
  { turn := 0
    chapter := 1
    location := "bunker_entrance"
    profession := "hardware"
    level := 1
    hp := 3
    knowledge_score := 0
    robot_parts := { power := false, motor := false, sensors := false, control := false }
    flags := []
    inventory := []
    danger_level := 10
    is_game_over := false
    is_win := false }

/-- The state_update_hint dictionary from a generator response.  Absent
keys are none or empty lists. -/
structure StateUpdateHint where
  location : Option Value := none
  chapter : Option Value := none
  robot_parts : List (String × Value) := []
  flags : List (String × Value) := []
  inventory_add : List Value := []
  danger_delta : Option Value := none
  knowledge_delta : Option Value := none
  hp_delta : Option Value := none
deriving DecidableEq, Repr

/-- Dictionary lookup on an association list, first binding wins. -/
def lookupVal (m : List (String × Value)) (k : String) : Option Value :=
  (m.find? (fun kv => kv.1 == k)).map (fun kv => kv.2)

/-- The value bound to key k when it is a boolean, none otherwise: the
isinstance(robot_parts[k], bool) guard. -/
def boolAt (m : List (String × Value)) (k : String) : Option Bool :=
  match lookupVal m k with
  | some (.vBool b) => some b
  | _ => none

/-- Store a key in a flag map, overwriting an existing binding and
appending a new one: self.state.flags[k] = v. -/
def setFlag (m : List (String × Value)) (k : String) (v : Value) : List (String × Value) :=
  if m.any (fun kv => kv.1 == k) then
    m.map (fun kv => if kv.1 == k then (k, v) else kv)
  else m ++ [(k, v)]

/-- chapter = hint.get("chapter"); if chapter: self.state.chapter =
int(chapter).  The int() call may raise. -/
def applyChapter (hint : StateUpdateHint) (s : State) : State × Option Unit :=
  match hint.chapter with
  | none => (s, none)
  | some v =>
    if v.truthy then
      match pyInt v with
      | .ok n => ({ s with chapter := n }, none)
      | .error e => (s, some e)
    else (s, none)

/-- Overwrite each of the four named parts only when the hint binds it to
a boolean. -/
def applyRobotParts (hint : StateUpdateHint) (s : State) : State :=
  let p := s.robot_parts
  let p := { p with power := (boolAt hint.robot_parts "power").getD p.power }
  let p := { p with motor := (boolAt hint.robot_parts "motor").getD p.motor }
  let p := { p with sensors := (boolAt hint.robot_parts "sensors").getD p.sensors }
  let p := { p with control := (boolAt hint.robot_parts "control").getD p.control }
  { s with robot_parts := p }

/-- Shallow-merge the hint flag map into the state flag map. -/
def applyFlags (hint : StateUpdateHint) (s : State) : State :=
  { s with flags := hint.flags.foldl (fun m kv => setFlag m kv.1 kv.2) s.flags }

/-- Append each hinted item not already present, preserving order. -/
def applyInventory (hint : StateUpdateHint) (s : State) : State :=
  let addOne := fun (inv : List Value) (item : Value) =>
    if inv.contains item then inv else inv ++ [item]
  { s with inventory := hint.inventory_add.foldl addOne s.inventory }

/-- int(hint.get(key) or 0): an absent or falsy value contributes 0; a
truthy value goes through int(), which may raise. -/
def hintDelta (v : Option Value) : Except Unit Int :=
  match v with
  | none => .ok 0
  | some v => if v.truthy then pyInt v else .ok 0

/-- Add the danger delta and clamp to the 0..100 band. -/
def applyDanger (hint : StateUpdateHint) (s : State) : State × Option Unit :=
  match hintDelta hint.danger_delta with
  | .error e => (s, some e)
  | .ok d => ({ s with danger_level := max 0 (min 100 (s.danger_level + d)) }, none)

/-- Add the knowledge delta. -/
def applyKnowledge (hint : StateUpdateHint) (s : State) : State × Option Unit :=
  match hintDelta hint.knowledge_delta with
  | .error e => (s, some e)
  | .ok d => ({ s with knowledge_score := s.knowledge_score + d }, none)

/-- Verdict of a quiz turn. -/
inductive QuizResult where
  | correct
  | wrong
deriving DecidableEq, Repr

/-- Quiz bonus and penalty: +1 knowledge on correct, -1 hp on wrong. -/
def applyQuizResult (qr : Option QuizResult) (s : State) : State :=
  match qr with
  | some .correct => { s with knowledge_score := s.knowledge_score + 1 }
  | some .wrong => { s with hp := s.hp - 1 }
  | none => s

/-- Add the hp delta, no clamping. -/
def applyHp (hint : StateUpdateHint) (s : State) : State × Option Unit :=
  match hintDelta hint.hp_delta with
  | .error e => (s, some e)
  | .ok d => ({ s with hp := s.hp + d }, none)

/-- Level-up rule: if self.state.knowledge_score in (3, 6): level += 1. -/
def applyLevel (s : State) : State :=
  if s.knowledge_score == 3 || s.knowledge_score == 6 then
    { s with level := s.level + 1 }
  else s

/-- A mutation step on the session state that can raise: on an error the
partially mutated state reached so far is kept, matching in-place
mutation of the Python object under a propagating exception. -/
def StepM := State → State × Option Unit

/-- Sequencing of mutation steps: a raised error aborts the rest and
keeps the state mutated so far. -/
def stepBind (f g : StepM) : StepM := fun s =>
  match f s with
  | (s1, some e) => (s1, some e)
  | (s1, none) => g s1

/-- A step that cannot raise. -/
def okStep (f : State → State) : StepM := fun s => (f s, none)

/-- Game.apply_state_update.  The hint location key is ignored outright
(hint.pop); the remaining fields are applied in source order: chapter,
robot_parts, flags, inventory_add, danger_delta, knowledge_delta, the
quiz verdict, hp_delta, then the level rule.  A failing int() conversion
aborts mid-way, leaving the state partially mutated. -/
def apply_state_update (hint : StateUpdateHint) (quiz_result : Option QuizResult) : StepM :=
  stepBind (applyChapter hint)
    (stepBind (okStep (applyRobotParts hint))
      (stepBind (okStep (applyFlags hint))
        (stepBind (okStep (applyInventory hint))
          (stepBind (applyDanger hint)
            (stepBind (applyKnowledge hint)
              (stepBind (okStep (applyQuizResult quiz_result))
                (stepBind (applyHp hint)
                  (okStep applyLevel))))))))

/-- A candidate player choice from a turn response; the id may be any
dynamic value since the generator is untrusted. -/
structure Choice where
  id : Value
  text : String
deriving DecidableEq, Repr

/-- A quiz record from a turn response. -/
structure Quiz where
  question : String
  options : List (String × String)
  correct : String
  explanation : String
deriving DecidableEq, Repr

/-- A parsed generator turn response. -/
structure TurnResponse where
  narration : String := ""
  mode : String := ""
  choices : List Choice := []
  quiz : Option Quiz := none
  state_update_hint : Option StateUpdateHint := none
deriving DecidableEq, Repr

/-- A choice id is a movement identifier when it is a string with the
reserved move marker at the front: isinstance(cid, str) and
cid.startswith plus the literal marker. -/
def isMoveId : Value → Bool
  | .vStr s => "move_".data.isPrefixOf s.data
  | _ => false

/-- Drop the location key from a hint, if the response carries one:
turn_data["state_update_hint"].pop("location", None). -/
def dropHintLocation (td : TurnResponse) : TurnResponse :=
  { td with state_update_hint := td.state_update_hint.map (fun h => { h with location := none }) }

/-- The post-parse sanitization in run_explore_turn: discard choices with
movement identifiers, then drop the hint location key. -/
def sanitize_explore (td : TurnResponse) : TurnResponse :=
  let td := { td with choices := td.choices.filter (fun c => !(isMoveId c.id)) }
  dropHintLocation td

/-- The post-parse sanitization in run_quiz_turn: only the hint location
key is dropped; the choice list is left untouched. -/
def sanitize_quiz (td : TurnResponse) : TurnResponse :=
  dropHintLocation td

/-- The world map: location identifier to connection list, the
connections entry of each room record in config rooms. -/
abbrev Rooms := List (String × List String)

/-- self.rooms.get(location, ...).get("connections", ...). -/
def connectionsOf (rooms : Rooms) (loc : String) : List String :=
  ((rooms.find? (fun kv => kv.1 == loc)).map (fun kv => kv.2)).getD []

/-- Game.get_movement_choices: one synthesized movement choice per legal
connection from the current location. -/
def get_movement_choices (rooms : Rooms) (loc : String) : List Choice :=
  (connectionsOf rooms loc).map
    (fun conn => { id := Value.vStr ("move_" ++ conn), text := "前往 " ++ conn })

/-- Remove every occurrence of the move marker, left to right and
non-overlapping: cid.replace with the marker and the empty string.  The
fuel argument starts at the list length and is never exhausted, keeping
the recursion structural. -/
def stripMoveAux : Nat → List Char → List Char
  | 0, s => s
  | _ + 1, [] => []
  | fuel + 1, c :: cs =>
    if "move_".data.isPrefixOf (c :: cs) then stripMoveAux fuel (cs.drop 4)
    else c :: stripMoveAux fuel cs

/-- cid.replace applied to the move marker and the empty replacement. -/
def stripMove (s : String) : String :=
  String.mk (stripMoveAux s.data.length s.data)

/-- The selection the player eventually enters at an explore menu (the
save control merely re-prompts, so it does not appear here). -/
inductive PlayerSel where
  | quit
  | pick (idx : Nat)
deriving DecidableEq, Repr

/-- Game.handle_explore, restricted to its effect on the session state:
present the generator choices followed by the synthesized movement
choices; with no choices at all the turn is skipped; quit sets
is_game_over and returns; a movement choice re-checks the connection and
moves (or is a logged no-op); other choices leave the state unchanged.
A chosen non-string id makes cid.startswith raise, modelled by the error
marker. -/
def handle_explore (rooms : Rooms) (td : TurnResponse) (sel : PlayerSel)
    (s : State) : State × Option Unit :=
  let choices := td.choices ++ get_movement_choices rooms s.location
  if choices.isEmpty then (s, none)
  else
    match sel with
    | .quit => ({ s with is_game_over := true }, none)
    | .pick idx =>
      match choices.get? idx with
      | none => (s, none)
      | some chosen =>
        match chosen.id with
        | .vStr cid =>
          if "move_".data.isPrefixOf cid.data then
            let new_loc := stripMove cid
            if (connectionsOf rooms s.location).contains new_loc then
              ({ s with location := new_loc }, none)
            else (s, none)
          else (s, none)
        | _ => (s, some ())

/-- ASCII upper-casing of one character, the effect of str.upper on the
quiz labels used here. -/
def asciiUpperChar (c : Char) : Char :=
  if c.toNat ≥ 97 && c.toNat ≤ 122 then Char.ofNat (c.toNat - 32) else c

/-- str.upper on a label string. -/
def asciiUpper (s : String) : String :=
  String.mk (s.data.map asciiUpperChar)

/-- Game.handle_quiz, restricted to the verdict it returns: the
validated upper-case answer label against the upper-cased correct
label. -/
def handle_quiz (q : Quiz) (ans : String) : QuizResult :=
  if ans == asciiUpper q.correct then .correct else .wrong

/-- The terminal-condition checks at the end of a run_loop iteration:
the win check on the four parts first, then the hp check. -/
def check_terminal (s : State) : State :=
  let s := if s.robot_parts.allDone then { s with is_win := true } else s
  if s.hp ≤ 0 then { s with is_game_over := true } else s

/-- One scripted turn of the loop: either the generator response failed
to parse, or it parsed to td and the player answered with sel (explore)
or ans (quiz). -/
inductive TurnEvent where
  | parseFail
  | turn (td : TurnResponse) (sel : PlayerSel) (ans : String)
deriving DecidableEq, Repr

/-- Outcome of one loop iteration: continue normally, break on a parse
failure, or die on an uncaught exception. -/
inductive TurnOutcome where
  | normal (s : State)
  | fatalParse (s : State)
  | exc (s : State)
deriving DecidableEq, Repr

/-- The body of one run_loop iteration: increment the turn counter,
select the mode from the counter (every third turn is quiz), sanitize
the response per mode, route on the response mode tag and quiz record to
the quiz handler or the explore handler, apply the state update with the
verdict, then run the terminal checks. -/
def run_turn (rooms : Rooms) (ev : TurnEvent) (s0 : State) : TurnOutcome :=
  let s := { s0 with turn := s0.turn + 1 }
  match ev with
  | .parseFail => .fatalParse s
  | .turn td sel ans =>
    let mode := if s.turn % 3 == 0 then "quiz" else "explore"
    let td := if mode == "quiz" then sanitize_quiz td else sanitize_explore td
    let quizRoute := td.mode == "quiz" && td.quiz.isSome
    let routed : State × Option QuizResult × Option Unit :=
      if quizRoute then
        match td.quiz with
        | some q => (s, some (handle_quiz q ans), none)
        | none => (s, none, none)
      else
        match handle_explore rooms td sel s with
        | (s1, e) => (s1, none, e)
    match routed with
    | (s1, _, some _) => .exc s1
    | (s1, qr, none) =>
      let hint := td.state_update_hint.getD {}
      match apply_state_update hint qr s1 with
      | (s2, some _) => .exc s2
      | (s2, none) => .normal (check_terminal s2)

/-- Game.run_loop over a finite script of turn events: break when a
terminal flag is set, break with the state as-is on a parse failure or a
crash; an exhausted script returns the state reached so far. -/
def run_loop (rooms : Rooms) : List TurnEvent → State → State
  | [], s => s
  | ev :: rest, s =>
    if s.is_game_over || s.is_win then s
    else
      match run_turn rooms ev s with
      | .fatalParse s1 => s1
      | .exc s1 => s1
      | .normal s1 => run_loop rooms rest s1

/-- Which of the three endings Game.do_ending presents. -/
inductive EndingKind where
  | winEnding
  | gameOverEnding
  | exitEnding
deriving DecidableEq, Repr

/-- The branch structure of Game.do_ending: the win ending when is_win,
otherwise the game-over ending when is_game_over, otherwise the neutral
exit ending. -/
def do_ending_kind (s : State) : EndingKind :=
  if s.is_win then .winEnding
  else if s.is_game_over then .gameOverEnding
  else .exitEnding

/-- A hint whose only present key is chapter. -/
def chapterHint (v : Value) : StateUpdateHint := { chapter := some v }

/-- A hint whose only present key is hp_delta. -/
def hpHint (v : Value) : StateUpdateHint := { hp_delta := some v }

/-- A hint whose only present key is danger_delta. -/
def dangerHint (v : Value) : StateUpdateHint := { danger_delta := some v }

/-- A hint whose only present key is knowledge_delta. -/
def knowledgeHint (v : Value) : StateUpdateHint := { knowledge_delta := some v }

/-- The empty hint. -/
def emptyHint : StateUpdateHint := {}

/-- A small world graph shaped like the spec examples: the starting room
with two connections, each leading back. -/
def demoRooms : Rooms :=
  [("bunker_entrance", ["lab_1", "storage"]),
   ("lab_1", ["bunker_entrance"]),
   ("storage", ["bunker_entrance"])]

/-- A hint that completes all four robot parts and drains all hit points
in the same turn. -/
def winLossHint : StateUpdateHint :=
  { robot_parts := [("power", .vBool true), ("motor", .vBool true),
                    ("sensors", .vBool true), ("control", .vBool true)],
    hp_delta := some (.vInt (-3)) }

/-- An explore response carrying winLossHint and one ordinary choice. -/
def winLossTd : TurnResponse :=
  { mode := "explore",
    choices := [{ id := .vStr "look_around", text := "look around" }],
    state_update_hint := some winLossHint }

/-- A hint carrying only an hp penalty. -/
def quitHint : StateUpdateHint := { hp_delta := some (.vInt (-1)) }

/-- An explore response with no generator choices, carrying quitHint. -/
def quitTd : TurnResponse := { mode := "explore", state_update_hint := some quitHint }

/-- A quiz-mode response with no quiz record whose only choice carries a
movement identifier. -/
def tdMoveQuiz : TurnResponse :=
  { mode := "quiz",
    choices := [{ id := .vStr "move_lab_1", text := "sneak away" }] }

/-- An explore response with one ordinary choice and no hint. -/
def waitTd : TurnResponse :=
  { mode := "explore", choices := [{ id := .vStr "wait", text := "wait" }] }

/-- A hint with a non-numeric string in danger_delta after several
well-formed fields. -/
def badHint : StateUpdateHint :=
  { chapter := some (.vInt 2),
    flags := [("met_scientist", .vBool true)],
    inventory_add := [.vStr "keycard"],
    danger_delta := some (.vStr "lots") }

/-- The initial state with knowledge score 2, the scenario A and B start
point. -/
def ks2State : State := { initState with knowledge_score := 2 }

/-- The initial state with one hit point left, the scenario C start
point. -/
def hp1State : State := { initState with hp := 1 }

/-- The initial state in chapter 5. -/
def ch5State : State := { initState with chapter := 5 }

theorem stepBind_ok {f g : StepM} {s s1 : State} (h : f s = (s1, none)) :
    stepBind f g s = g s1 := by
  unfold stepBind
  rw [h]

theorem stepBind_okStep (f : State → State) (g : StepM) (s : State) :
    stepBind (okStep f) g s = g (f s) := rfl

theorem hintDelta_vInt (d : Int) : hintDelta (some (.vInt d)) = .ok d := by
  by_cases h : d = 0
  · subst h; rfl
  · simp [hintDelta, Value.truthy, pyInt, h]

theorem applyChapter_none (hint : StateUpdateHint) (s : State) (h : hint.chapter = none) :
    applyChapter hint s = (s, none) := by
  unfold applyChapter
  rw [h]

theorem applyChapter_falsy (hint : StateUpdateHint) (s : State) (v : Value)
    (h : hint.chapter = some v) (hv : v.truthy = false) :
    applyChapter hint s = (s, none) := by
  unfold applyChapter
  rw [h]
  dsimp only
  rw [hv]
  rfl

theorem applyChapter_int (hint : StateUpdateHint) (s : State) (n : Int)
    (h : hint.chapter = some (.vInt n)) (hn : n ≠ 0) :
    applyChapter hint s = ({ s with chapter := n }, none) := by
  unfold applyChapter
  rw [h]
  have hb : (Value.vInt n).truthy = true := by simp [Value.truthy, hn]
  dsimp only
  rw [hb]
  rfl

theorem applyDanger_ok (hint : StateUpdateHint) (s : State) (d : Int)
    (h : hintDelta hint.danger_delta = .ok d) :
    applyDanger hint s = ({ s with danger_level := max 0 (min 100 (s.danger_level + d)) }, none) := by
  unfold applyDanger
  rw [h]

theorem applyKnowledge_ok (hint : StateUpdateHint) (s : State) (d : Int)
    (h : hintDelta hint.knowledge_delta = .ok d) :
    applyKnowledge hint s = ({ s with knowledge_score := s.knowledge_score + d }, none) := by
  unfold applyKnowledge
  rw [h]

theorem applyHp_ok (hint : StateUpdateHint) (s : State) (d : Int)
    (h : hintDelta hint.hp_delta = .ok d) :
    applyHp hint s = ({ s with hp := s.hp + d }, none) := by
  unfold applyHp
  rw [h]

theorem applyLevel_chapter (s : State) : (applyLevel s).chapter = s.chapter := by
  unfold applyLevel
  split <;> rfl

theorem applyLevel_hp (s : State) : (applyLevel s).hp = s.hp := by
  unfold applyLevel
  split <;> rfl

theorem applyLevel_danger (s : State) : (applyLevel s).danger_level = s.danger_level := by
  unfold applyLevel
  split <;> rfl

theorem applyLevel_location (s : State) : (applyLevel s).location = s.location := by
  unfold applyLevel
  split <;> rfl

theorem applyChapter_location (hint : StateUpdateHint) (s : State) :
    ((applyChapter hint s).1).location = s.location := by
  unfold applyChapter
  cases hint.chapter with
  | none => rfl
  | some v =>
    dsimp only
    split
    · cases pyInt v <;> rfl
    · rfl

theorem applyDanger_location (hint : StateUpdateHint) (s : State) :
    ((applyDanger hint s).1).location = s.location := by
  unfold applyDanger
  cases hintDelta hint.danger_delta <;> rfl

theorem applyKnowledge_location (hint : StateUpdateHint) (s : State) :
    ((applyKnowledge hint s).1).location = s.location := by
  unfold applyKnowledge
  cases hintDelta hint.knowledge_delta <;> rfl

theorem applyHp_location (hint : StateUpdateHint) (s : State) :
    ((applyHp hint s).1).location = s.location := by
  unfold applyHp
  cases hintDelta hint.hp_delta <;> rfl

theorem applyQuizResult_location (qr : Option QuizResult) (s : State) :
    (applyQuizResult qr s).location = s.location := by
  cases qr with
  | none => rfl
  | some r => cases r <;> rfl

theorem okStep_loc (f : State → State) (hf : ∀ t, (f t).location = t.location) (s : State) :
    ((okStep f s).1).location = s.location := hf s

theorem stepBind_loc {f g : StepM} (hf : ∀ t, ((f t).1).location = t.location)
    (hg : ∀ t, ((g t).1).location = t.location) (s : State) :
    ((stepBind f g s).1).location = s.location := by
  unfold stepBind
  rcases hfs : f s with ⟨s1, o1⟩
  have h1 := hf s
  rw [hfs] at h1
  cases o1 with
  | some e => exact h1
  | none => exact (hg s1).trans h1

theorem check_terminal_game_over (s : State) (h : s.hp ≤ 0) :
    (check_terminal s).is_game_over = true := by
  unfold check_terminal
  by_cases hA : s.robot_parts.allDone = true
  · rw [if_pos hA, if_pos h]
  · rw [if_neg hA, if_pos h]

/-- Claim C1: for every state-update hint (a location-carrying hint
included) and every quiz verdict, apply_state_update leaves the current
location of the session state unchanged, also on the partially applied
error path. -/
theorem apply_state_update_preserves_location (hint : StateUpdateHint)
    (qr : Option QuizResult) (s : State) :
    ((apply_state_update hint qr s).1).location = s.location := by
  unfold apply_state_update
  exact stepBind_loc (applyChapter_location hint)
    (stepBind_loc (okStep_loc (applyRobotParts hint) (fun t => rfl))
      (stepBind_loc (okStep_loc (applyFlags hint) (fun t => rfl))
        (stepBind_loc (okStep_loc (applyInventory hint) (fun t => rfl))
          (stepBind_loc (applyDanger_location hint)
            (stepBind_loc (applyKnowledge_location hint)
              (stepBind_loc (okStep_loc (applyQuizResult qr) (applyQuizResult_location qr))
                (stepBind_loc (applyHp_location hint)
                  (okStep_loc applyLevel applyLevel_location)))))))) s

/-- Claim C2, counterexample: the quiz-turn sanitizer leaves a
movement-prefixed generator choice in place, and in a full loop run such
a choice reaches the explore menu on a quiz-cadence turn (a quiz-mode
response with no quiz record routes to the explore handler) and moves
the player to lab_1. -/
theorem sanitize_quiz_keeps_movement_choice :
    ((sanitize_quiz tdMoveQuiz).choices.all (fun c => !(isMoveId c.id))) = false ∧
    (sanitize_quiz tdMoveQuiz).choices = tdMoveQuiz.choices ∧
    (run_loop demoRooms
      [.turn waitTd (.pick 0) "A", .turn waitTd (.pick 0) "A",
       .turn tdMoveQuiz (.pick 0) "A"] initState).location = "lab_1" :=
  ⟨rfl, rfl, rfl⟩

/-- Claim C2, amended: the movement filter is complete on explore turns
only: the explore-turn sanitizer output contains zero movement-prefixed
choice identifiers, while the quiz-turn sanitizer does not filter the
choice list at all. -/
theorem sanitize_explore_no_movement_choices (td : TurnResponse) :
    ((sanitize_explore td).choices.all (fun c => !(isMoveId c.id))) = true := by
  simp only [sanitize_explore, dropHintLocation, List.all_eq_true]
  intro c hc
  have h := List.of_mem_filter hc
  simpa using h

/-- Claim C3, counterexample: one explore turn from the initial state,
with a hint that completes all four parts and drains hp to 0, ends with
both terminal flags true at once. -/
theorem both_terminal_flags_reachable :
    (run_loop demoRooms [.turn winLossTd (.pick 0) "A"] initState).is_game_over = true ∧
    (run_loop demoRooms [.turn winLossTd (.pick 0) "A"] initState).is_win = true :=
  ⟨rfl, rfl⟩

/-- Claim C3, amended: both terminal flags are false initially, and the
turn-end check sets is_win exactly when the four parts are complete (or
it was already set) and is_game_over exactly when hp is at most 0 (or it
was already set); the two conditions are independent, so a single turn
can set both flags. -/
theorem terminal_flags_initial_and_check (s : State) :
    initState.is_game_over = false ∧ initState.is_win = false ∧
    (check_terminal s).is_win = (s.is_win || s.robot_parts.allDone) ∧
    (check_terminal s).is_game_over = (s.is_game_over || decide (s.hp ≤ 0)) := by
  refine ⟨rfl, rfl, ?_, ?_⟩ <;>
    (unfold check_terminal
     by_cases hA : s.robot_parts.allDone <;>
       by_cases hH : s.hp ≤ 0 <;>
         simp [hA, hH])

/-- Claim C4: at the failing input (explore turn from the initial state,
player enters the quit control, hint carries an hp penalty) the code
sets is_game_over, the loss flag, still applies the hint afterwards
(hp drops from 3 to 2), and do_ending presents the game-over ending
rather than the neutral exit ending. -/
theorem quit_sets_loss_flag_and_applier_still_runs :
    (run_loop demoRooms [.turn quitTd .quit "A"] initState).is_game_over = true ∧
    (run_loop demoRooms [.turn quitTd .quit "A"] initState).hp = 2 ∧
    (run_loop demoRooms [.turn quitTd .quit "A"] initState).is_win = false ∧
    do_ending_kind (run_loop demoRooms [.turn quitTd .quit "A"] initState) = .gameOverEnding :=
  ⟨rfl, rfl, rfl, rfl⟩

/-- Claim C5, counterexample: from chapter 5, a hint carrying chapter 2
is accepted and the chapter decreases to 2. -/
theorem chapter_decrease_accepted :
    (apply_state_update (chapterHint (.vInt 2)) none ch5State).1.chapter = 2 ∧
    ch5State.chapter = 5 :=
  ⟨rfl, rfl⟩

/-- Claim C5, amended: a hint chapter value is accepted whenever it is
truthy, with no increase check: any nonzero integer chapter value
overwrites the current chapter, decreases included, while a falsy
chapter value of 0 leaves the chapter unchanged. -/
theorem chapter_overwritten_when_truthy (s : State) (n : Int) (h : n ≠ 0) :
    (apply_state_update (chapterHint (.vInt n)) none s).1.chapter = n ∧
    (apply_state_update (chapterHint (.vInt 0)) none s).1.chapter = s.chapter := by
  constructor
  · unfold apply_state_update
    rw [stepBind_ok (applyChapter_int (chapterHint (.vInt n)) s n rfl h)]
    rw [stepBind_okStep, stepBind_okStep, stepBind_okStep]
    rw [stepBind_ok (applyDanger_ok (chapterHint (.vInt n)) _ 0 rfl)]
    rw [stepBind_ok (applyKnowledge_ok (chapterHint (.vInt n)) _ 0 rfl)]
    rw [stepBind_okStep]
    rw [stepBind_ok (applyHp_ok (chapterHint (.vInt n)) _ 0 rfl)]
    rw [okStep]
    rw [applyLevel_chapter]
    rfl
  · unfold apply_state_update
    rw [stepBind_ok (applyChapter_falsy (chapterHint (.vInt 0)) s (.vInt 0) rfl rfl)]
    rw [stepBind_okStep, stepBind_okStep, stepBind_okStep]
    rw [stepBind_ok (applyDanger_ok (chapterHint (.vInt 0)) _ 0 rfl)]
    rw [stepBind_ok (applyKnowledge_ok (chapterHint (.vInt 0)) _ 0 rfl)]
    rw [stepBind_okStep]
    rw [stepBind_ok (applyHp_ok (chapterHint (.vInt 0)) _ 0 rfl)]
    rw [okStep]
    rw [applyLevel_chapter]
    rfl

/-- Claim C5, witness for the amended theorem at the concrete value 3
from the initial state. -/
theorem chapter_overwritten_when_truthy_witness :
    (3 : Int) ≠ 0 ∧
    ((apply_state_update (chapterHint (.vInt 3)) none initState).1.chapter = 3 ∧
     (apply_state_update (chapterHint (.vInt 0)) none initState).1.chapter = initState.chapter) :=
  ⟨by decide, chapter_overwritten_when_truthy initState 3 (by decide)⟩

/-- Claim C6: from knowledge score 2 at level 1, a +1 knowledge hint
lands exactly on threshold 3 and increments the level to 2, while a +2
hint skips over the threshold to 4 and leaves the level at 1. -/
theorem leveling_triggers_on_threshold_equality (s : State)
    (hk : s.knowledge_score = 2) (hl : s.level = 1) :
    ((apply_state_update (knowledgeHint (.vInt 1)) none s).1.knowledge_score = 3 ∧
     (apply_state_update (knowledgeHint (.vInt 1)) none s).1.level = 2) ∧
    ((apply_state_update (knowledgeHint (.vInt 2)) none s).1.knowledge_score = 4 ∧
     (apply_state_update (knowledgeHint (.vInt 2)) none s).1.level = 1) := by
  obtain ⟨t, ch, loc, prof, lv, hp, ks, rp, fl, inv, dl, go, wn⟩ := s
  dsimp only at hk hl
  subst hk hl
  exact ⟨⟨rfl, rfl⟩, rfl, rfl⟩

/-- Claim C6, witness at the concrete state with knowledge score 2. -/
theorem leveling_triggers_on_threshold_equality_witness :
    (ks2State.knowledge_score = 2 ∧ ks2State.level = 1) ∧
    (((apply_state_update (knowledgeHint (.vInt 1)) none ks2State).1.knowledge_score = 3 ∧
      (apply_state_update (knowledgeHint (.vInt 1)) none ks2State).1.level = 2) ∧
     ((apply_state_update (knowledgeHint (.vInt 2)) none ks2State).1.knowledge_score = 4 ∧
      (apply_state_update (knowledgeHint (.vInt 2)) none ks2State).1.level = 1)) :=
  ⟨⟨rfl, rfl⟩, leveling_triggers_on_threshold_equality ks2State rfl rfl⟩

/-- Claim C7: on a wrong quiz verdict the applier subtracts 1 hit point
and then adds the signed hp delta with no clamping floor; with one hit
point left and no delta the hit points land on 0 and the turn-end check
sets is_game_over. -/
theorem wrong_verdict_hp_and_game_over (s : State) (d : Int) (h1 : s.hp = 1) :
    (apply_state_update (hpHint (.vInt d)) (some .wrong) s).1.hp = s.hp - 1 + d ∧
    (apply_state_update emptyHint (some .wrong) s).1.hp = 0 ∧
    (check_terminal (apply_state_update emptyHint (some .wrong) s).1).is_game_over = true := by
  have key : ∀ e : Int, ∀ hint : StateUpdateHint, hint.chapter = none →
      hint.robot_parts = [] → hint.flags = [] → hint.inventory_add = [] →
      hintDelta hint.danger_delta = .ok 0 → hintDelta hint.knowledge_delta = .ok 0 →
      hintDelta hint.hp_delta = .ok e →
      (apply_state_update hint (some .wrong) s).1.hp = s.hp - 1 + e := by
    intro e hint hc hr hf hi hd hk hh
    unfold apply_state_update
    rw [stepBind_ok (applyChapter_none hint s hc)]
    rw [stepBind_okStep, stepBind_okStep, stepBind_okStep]
    rw [stepBind_ok (applyDanger_ok hint _ 0 hd)]
    rw [stepBind_ok (applyKnowledge_ok hint _ 0 hk)]
    rw [stepBind_okStep]
    rw [stepBind_ok (applyHp_ok hint _ e hh)]
    rw [okStep]
    rw [applyLevel_hp]
    have hrp : applyRobotParts hint s = s := by
      unfold applyRobotParts
      rw [hr]
      rfl
    rw [hrp]
    have hfl : ∀ t : State, applyFlags hint t = t := by
      intro t
      unfold applyFlags
      rw [hf]
      rfl
    rw [hfl]
    have hin : ∀ t : State, applyInventory hint t = t := by
      intro t
      unfold applyInventory
      rw [hi]
      rfl
    rw [hin]
    rfl
  refine ⟨key d (hpHint (.vInt d)) rfl rfl rfl rfl rfl rfl (hintDelta_vInt d), ?_, ?_⟩
  · rw [key 0 emptyHint rfl rfl rfl rfl rfl rfl rfl, h1]
    decide
  · apply check_terminal_game_over
    rw [key 0 emptyHint rfl rfl rfl rfl rfl rfl rfl, h1]
    decide

/-- Claim C7, witness at the concrete state with one hit point and the
delta 5. -/
theorem wrong_verdict_hp_and_game_over_witness :
    hp1State.hp = 1 ∧
    ((apply_state_update (hpHint (.vInt 5)) (some .wrong) hp1State).1.hp = hp1State.hp - 1 + 5 ∧
     (apply_state_update emptyHint (some .wrong) hp1State).1.hp = 0 ∧
     (check_terminal (apply_state_update emptyHint (some .wrong) hp1State).1).is_game_over = true) :=
  ⟨rfl, wrong_verdict_hp_and_game_over hp1State 5 rfl⟩

/-- Claim C8: for every signed danger delta, if the danger level is in
the 0..100 band before the applier runs, it is in the band afterwards
(and the clamp in fact needs no precondition at all). -/
theorem danger_level_clamped (s : State) (d : Int)
    (h0 : 0 ≤ s.danger_level) (h100 : s.danger_level ≤ 100) :
    0 ≤ (apply_state_update (dangerHint (.vInt d)) none s).1.danger_level ∧
    (apply_state_update (dangerHint (.vInt d)) none s).1.danger_level ≤ 100 := by
  have hv : (apply_state_update (dangerHint (.vInt d)) none s).1.danger_level
      = max 0 (min 100 (s.danger_level + d)) := by
    unfold apply_state_update
    rw [stepBind_ok (applyChapter_none (dangerHint (.vInt d)) s rfl)]
    rw [stepBind_okStep, stepBind_okStep, stepBind_okStep]
    rw [stepBind_ok (applyDanger_ok (dangerHint (.vInt d)) _ d (hintDelta_vInt d))]
    rw [stepBind_ok (applyKnowledge_ok (dangerHint (.vInt d)) _ 0 rfl)]
    rw [stepBind_okStep]
    rw [stepBind_ok (applyHp_ok (dangerHint (.vInt d)) _ 0 rfl)]
    rw [okStep]
    rw [applyLevel_danger]
    rfl
  rw [hv]
  exact ⟨le_max_left _ _, max_le (by norm_num) (min_le_left _ _)⟩

/-- Claim C8, witness at the initial state with the large negative delta
-5000. -/
theorem danger_level_clamped_witness :
    (0 ≤ initState.danger_level ∧ initState.danger_level ≤ 100) ∧
    (0 ≤ (apply_state_update (dangerHint (.vInt (-5000))) none initState).1.danger_level ∧
     (apply_state_update (dangerHint (.vInt (-5000))) none initState).1.danger_level ≤ 100) :=
  ⟨⟨by decide, by decide⟩, danger_level_clamped initState (-5000) (by decide) (by decide)⟩

/-- Claim C9: when the generator response of the next turn cannot be
parsed, the loop ends at once: the final state is the pre-turn state
with only the turn counter incremented (so no retry happens and no other
field mutates), both terminal flags stay false, and do_ending presents
the neutral exit ending, recording no win or loss verdict. -/
theorem parse_failure_fatal_no_verdict (rooms : Rooms) (evs : List TurnEvent) (s : State)
    (hgo : s.is_game_over = false) (hwin : s.is_win = false) :
    run_loop rooms (.parseFail :: evs) s = { s with turn := s.turn + 1 } ∧
    (run_loop rooms (.parseFail :: evs) s).is_game_over = false ∧
    (run_loop rooms (.parseFail :: evs) s).is_win = false ∧
    do_ending_kind (run_loop rooms (.parseFail :: evs) s) = .exitEnding := by
  have h : run_loop rooms (.parseFail :: evs) s = { s with turn := s.turn + 1 } := by
    have hcond : (s.is_game_over || s.is_win) = false := by rw [hgo, hwin]; rfl
    unfold run_loop
    rw [hcond]
    rfl
  have hg2 : (run_loop rooms (.parseFail :: evs) s).is_game_over = false := by
    rw [h]
    exact hgo
  have hw2 : (run_loop rooms (.parseFail :: evs) s).is_win = false := by
    rw [h]
    exact hwin
  refine ⟨h, hg2, hw2, ?_⟩
  simp [do_ending_kind, hg2, hw2]

/-- Claim C9, witness: a parse failure on the very first turn of a
session over the demo world. -/
theorem parse_failure_fatal_no_verdict_witness :
    (initState.is_game_over = false ∧ initState.is_win = false) ∧
    (run_loop demoRooms [.parseFail] initState = { initState with turn := initState.turn + 1 } ∧
     (run_loop demoRooms [.parseFail] initState).is_game_over = false ∧
     (run_loop demoRooms [.parseFail] initState).is_win = false ∧
     do_ending_kind (run_loop demoRooms [.parseFail] initState) = .exitEnding) :=
  ⟨⟨rfl, rfl⟩, parse_failure_fatal_no_verdict demoRooms [] initState rfl rfl⟩

/-- Claim C10: the applier is neither total nor atomic: on a hint whose
danger_delta holds the non-numeric string lots, the int() conversion
raises (the error marker is set) after the chapter, flag and inventory
fields were already applied, leaving the state partially updated rather
than unchanged. -/
theorem apply_state_update_not_atomic :
    (apply_state_update badHint none initState).2 = some () ∧
    (apply_state_update badHint none initState).1.chapter = 2 ∧
    (apply_state_update badHint none initState).1.flags = [("met_scientist", Value.vBool true)] ∧
    (apply_state_update badHint none initState).1.inventory = [Value.vStr "keycard"] ∧
    (apply_state_update badHint none initState).1 ≠ initState := by
  refine ⟨rfl, rfl, rfl, rfl, ?_⟩
  decide

end RobotApoc
